import Mathlib

/-!
Verification development for the single-file Flask gateway `src/main.py`
(twitter-api-webhook).  The program translates an inbound
`{action, params}` envelope into one outbound GET against a fixed
upstream host, enforcing a minimum interval between outbound requests
via a module-global `last_request_time` updated by `rate_limit_decorator`.

The embedding below translates the source faithfully:
* Python parameter dicts become association lists `Params`;
* `dict.get`, `dict.get(k, d)`, truthiness (`if not x`) and the
  short-circuiting `or` on optional strings are modelled explicitly;
* each handler function of `main.py` is one of a handful of literal
  shapes (the 46 handler bodies are near-identical); the shapes are
  captured by `HSpec` and executed by `interp`, which mirrors the
  handler bodies line by line;
* the upstream call is a parameter (an oracle from the request the code
  would make to the `UpstreamOutcome` it receives); each handler result
  records the list of upstream requests actually attempted;
* wall-clock time is modelled by exact rationals (seconds).
-/

/-- Python string-truthiness of an optional string, as used by
`if not x:` in `main.py`: `None` and the empty string are falsy. -/
def truthy : Option String → Bool
  | none => false
  | some s => s != ""

/-- Inbound parameter mapping (`params` dict of the envelope): keys are
unique in a Python dict, lookup is by exact key. -/
abbrev Params := List (String × String)

/-- `params.get(k)`: `None` when the key is absent. -/
def pyGet (params : Params) (k : String) : Option String :=
  List.lookup k params

/-- `params.get(k, d)`: the stored value when the key is present (even
when it is the empty string), else the default `d`. -/
def pyGetD (params : Params) (k d : String) : String :=
  (pyGet params k).getD d

/-- Python `a or b` on optional strings: `a` when `a` is truthy
(present and non-empty), else `b`. -/
def pyOr (a b : Option String) : Option String :=
  if truthy a then a else b

/-- One outbound request the code would issue: the upstream path
(relative to `BASE_URL`) and the query-parameter mapping passed to
`requests.get`. -/
structure UpstreamRequest where
  path : String
  query : List (String × String)
deriving DecidableEq, Repr

/-- What the upstream call produces: an HTTP response with a status
code and a (JSON) body, or a transport-level failure (the `Exception`
branch of each handler's `try`). -/
inductive UpstreamOutcome where
  | http (status : Nat) (body : String)
  | transportError
deriving DecidableEq, Repr

/-- The JSON bodies the gateway can send back to its caller, one
constructor per shape appearing in `main.py`:
`errMsg m` is `jsonify({"error": m})`;
`errWithActions m as` is `jsonify({"error": m, "available_actions": as})`;
`rateLimited e s st` is the three-field 429 body;
`upstream b` is `jsonify(response.json())`, the upstream body relayed
unmodified. -/
inductive RespBody where
  | errMsg (msg : String)
  | errWithActions (msg : String) (available_actions : List String)
  | rateLimited (error suggestion status : String)
  | upstream (body : String)
deriving DecidableEq, Repr

/-- A Flask handler return value `(jsonify(...), status)`. -/
abbrev Resp := RespBody × Nat

/-- Result of running one handler body: the `(body, status)` pair it
returns, plus the list of upstream requests it attempted (used to state
the zero-upstream-calls properties). -/
structure HandlerResult where
  response : Resp
  upstreamCalls : List UpstreamRequest
deriving DecidableEq, Repr

/-- A handler takes the inbound params and the upstream oracle. -/
def Handler := Params → (UpstreamRequest → UpstreamOutcome) → HandlerResult

/-- `handle_rapidapi_response` (main.py lines 52-66): translation of a
received upstream status/body into the outbound `(body, status)`. -/
def handle_rapidapi_response (status : Nat) (body : String) : Resp :=
  if status = 200 then
    (.upstream body, 200)
  else if status = 429 then
    (.rateLimited
      "Rate limit exceeded. Twitter API calls are limited on the BASIC plan."
      "Please wait a moment and try again, or consider upgrading your RapidAPI plan."
      "rate_limited", 429)
  else if status = 401 then
    (.errMsg "Invalid API key or authentication failed.", 401)
  else
    (.errMsg ("API request failed with status " ++ toString status), status)

/-- The shared `try: response = requests.get(...); return
handle_rapidapi_response(...) except: return ({"error": "Internal
server error"}, 500)` tail of every handler.  A transport failure
(exception raised by `requests.get`) still counts as one attempted
upstream request. -/
def callUpstream (upstream : UpstreamRequest → UpstreamOutcome)
    (path : String) (query : List (String × String)) : HandlerResult :=
  let req : UpstreamRequest := ⟨path, query⟩
  match upstream req with
  | .http s b => ⟨handle_rapidapi_response s b, [req]⟩
  | .transportError => ⟨(.errMsg "Internal server error", 500), [req]⟩

/-- The `return jsonify({"error": "Missing required parameter: ..."}),
400` early exit shared by the handlers; no upstream request is made. -/
def missingParam (names : String) : HandlerResult :=
  ⟨(.errMsg ("Missing required parameter: " ++ names), 400), []⟩

/-- `if cursor: request_params["cursor"] = cursor` — the cursor key is
appended only when the cursor value is present and non-empty. -/
def cursorSuffix (cursor : Option String) : List (String × String) :=
  if truthy cursor then [("cursor", cursor.getD "")] else []

/-- The handler-body shapes occurring in `main.py`.  The 46 handlers
are near-identical copies of these few templates; each constructor
records exactly the data in which the copies differ (parameter names,
the upstream query key, the per-action `count` default, the upstream
path). -/
inductive HSpec where
  /-- one required param `key`, query `{key: v}` (e.g. lines 69-85). -/
  | required1 (key path : String)
  /-- required alias pair `k1 or k2` sent as `outKey`, no count/cursor
  (e.g. `get_tweet_details`, lines 474-491). -/
  | alias1 (k1 k2 outKey path : String)
  /-- required alias pair plus `count` (default `dflt`) and optional
  cursor (e.g. `get_user_tweets`, lines 198-221). -/
  | aliasCC (k1 k2 outKey dflt path : String)
  /-- one required param plus `count` (default `dflt`) and optional
  cursor (e.g. `get_user_following_ids`, lines 248-271). -/
  | requiredCC (key dflt path : String)
  /-- required `query`, `type` default `"Top"`, `count` default `"20"`,
  optional cursor (`search_twitter`, lines 532-560). -/
  | searchTCC (path : String)
  /-- required alias pair, `type` default `"Top"`, `count` default
  `"20"`, optional cursor (`get_community_tweets`, lines 874-902). -/
  | aliasTCC (k1 k2 outKey path : String)
  /-- no parameters at all (e.g. `get_community_topics`, lines 785-796). -/
  | noParams (path : String)
  /-- one optional param with a default (`get_trends_by_location`,
  lines 1023-1037). -/
  | optDefault (key dflt path : String)
  /-- `search_jobs` (lines 962-988): required `query`, optional
  `location`, `count` default `"20"`, optional cursor. -/
  | jobsSearch
deriving DecidableEq, Repr

/-- Executes a handler shape; each arm mirrors the corresponding
handler body of `main.py` statement by statement. -/
def interp : HSpec → Handler
  | .required1 key path => fun params upstream =>
      let v := pyGet params key
      if truthy v then
        callUpstream upstream path [(key, v.getD "")]
      else
        missingParam key
  | .alias1 k1 k2 outKey path => fun params upstream =>
      let v := pyOr (pyGet params k1) (pyGet params k2)
      if truthy v then
        callUpstream upstream path [(outKey, v.getD "")]
      else
        missingParam (k1 ++ " or " ++ k2)
  | .aliasCC k1 k2 outKey dflt path => fun params upstream =>
      let v := pyOr (pyGet params k1) (pyGet params k2)
      let count := pyGetD params "count" dflt
      let cursor := pyGet params "cursor"
      if truthy v then
        callUpstream upstream path
          ([(outKey, v.getD ""), ("count", count)] ++ cursorSuffix cursor)
      else
        missingParam (k1 ++ " or " ++ k2)
  | .requiredCC key dflt path => fun params upstream =>
      let v := pyGet params key
      let count := pyGetD params "count" dflt
      let cursor := pyGet params "cursor"
      if truthy v then
        callUpstream upstream path
          ([(key, v.getD ""), ("count", count)] ++ cursorSuffix cursor)
      else
        missingParam key
  | .searchTCC path => fun params upstream =>
      let q := pyGet params "query"
      let tweetType := pyGetD params "type" "Top"
      let count := pyGetD params "count" "20"
      let cursor := pyGet params "cursor"
      if truthy q then
        callUpstream upstream path
          ([("query", q.getD ""), ("type", tweetType), ("count", count)]
            ++ cursorSuffix cursor)
      else
        missingParam "query"
  | .aliasTCC k1 k2 outKey path => fun params upstream =>
      let v := pyOr (pyGet params k1) (pyGet params k2)
      let tweetType := pyGetD params "type" "Top"
      let count := pyGetD params "count" "20"
      let cursor := pyGet params "cursor"
      if truthy v then
        callUpstream upstream path
          ([(outKey, v.getD ""), ("type", tweetType), ("count", count)]
            ++ cursorSuffix cursor)
      else
        missingParam (k1 ++ " or " ++ k2)
  | .noParams path => fun _ upstream =>
      callUpstream upstream path []
  | .optDefault key dflt path => fun params upstream =>
      callUpstream upstream path [(key, pyGetD params key dflt)]
  | .jobsSearch => fun params upstream =>
      let q := pyGet params "query"
      let location := pyGet params "location"
      let count := pyGetD params "count" "20"
      let cursor := pyGet params "cursor"
      if truthy q then
        callUpstream upstream "/jobs-search"
          ([("query", q.getD ""), ("count", count)]
            ++ (if truthy location then [("location", location.getD "")] else [])
            ++ cursorSuffix cursor)
      else
        missingParam "query"

/-- `get_user_by_username` (main.py lines 69-85). -/
def get_user_by_username : Handler :=
  interp (.required1 "username" "/user")

/-- `get_user_tweets` (main.py lines 198-221). -/
def get_user_tweets : Handler :=
  interp (.aliasCC "user" "user_id" "user" "20" "/user-tweets")

/-- `ACTION_MAP` (main.py lines 1091-1157), with each handler given by
its `HSpec` shape, in the source's insertion order (Python dicts
preserve insertion order, so this order is also the order of
`list(ACTION_MAP.keys())`). -/
def ACTION_SPECS : List (String × HSpec) := [
  ("get_user_by_username", .required1 "username" "/user"),
  ("get_users_by_ids", .required1 "ids" "/get-users"),
  ("get_users_by_ids_v2", .required1 "rest_ids" "/get-users-v2"),
  ("get_user_replies", .aliasCC "user" "user_id" "user" "20" "/user-replies"),
  ("get_user_replies_v2", .aliasCC "user" "user_id" "user" "20" "/user-replies-v2"),
  ("get_user_media", .aliasCC "user" "user_id" "user" "20" "/user-media"),
  ("get_user_tweets", .aliasCC "user" "user_id" "user" "20" "/user-tweets"),
  ("get_user_followings", .aliasCC "user" "user_id" "user" "20" "/followings"),
  ("get_user_following_ids", .requiredCC "username" "5000" "/following-ids"),
  ("get_user_followers", .aliasCC "user" "user_id" "user" "20" "/followers"),
  ("get_user_followers_ids", .requiredCC "username" "5000" "/followers-ids"),
  ("get_user_verified_followers", .aliasCC "user" "user_id" "user" "20" "/verified-followers"),
  ("get_highlights", .aliasCC "user" "user_id" "user" "20" "/highlights"),
  ("get_post_comments", .aliasCC "pid" "post_id" "pid" "20" "/comments"),
  ("get_post_comments_v2", .aliasCC "pid" "post_id" "pid" "20" "/comments-v2"),
  ("get_post_quotes", .aliasCC "pid" "post_id" "pid" "20" "/quotes"),
  ("get_post_retweets", .aliasCC "pid" "post_id" "pid" "20" "/retweets"),
  ("get_tweet_details", .alias1 "tweet_id" "pid" "pid" "/tweet"),
  ("get_tweet_details_v2", .alias1 "tweet_id" "pid" "pid" "/tweet-v2"),
  ("get_tweets_by_ids", .required1 "ids" "/tweet-by-ids"),
  ("search_twitter", .searchTCC "/search"),
  ("search_twitter_v2", .searchTCC "/search-v2"),
  ("autocomplete", .required1 "query" "/autocomplete"),
  ("get_space_details", .alias1 "id" "space_id" "id" "/spaces"),
  ("get_organization_affiliates", .alias1 "id" "org_id" "id" "/org-affiliates"),
  ("search_lists", .required1 "query" "/search-lists"),
  ("get_list_details", .alias1 "listId" "list_id" "listId" "/list-details"),
  ("get_list_timeline", .aliasCC "listId" "list_id" "listId" "20" "/list-timeline"),
  ("get_list_followers", .aliasCC "listId" "list_id" "listId" "20" "/list-followers"),
  ("get_list_members", .aliasCC "listId" "list_id" "listId" "20" "/list-members"),
  ("search_community", .required1 "query" "/search-community"),
  ("get_community_topics", .noParams "/community-topics"),
  ("fetch_popular_community", .noParams "/fetch-popular-community"),
  ("get_community_timeline", .noParams "/explore-community-timeline"),
  ("get_community_members", .aliasCC "communityId" "community_id" "communityId" "20" "/community-members"),
  ("get_community_moderators", .aliasCC "communityId" "community_id" "communityId" "20" "/community-moderators"),
  ("get_community_tweets", .aliasTCC "communityId" "community_id" "communityId" "/community-tweets"),
  ("get_community_about", .alias1 "communityId" "community_id" "communityId" "/community-about"),
  ("get_community_details", .alias1 "communityId" "community_id" "communityId" "/community-details"),
  ("search_job_locations", .required1 "query" "/jobs-locations-suggest"),
  ("search_jobs", .jobsSearch),
  ("get_job_details", .alias1 "jobId" "job_id" "jobId" "/job-details"),
  ("get_trends_locations", .noParams "/trends-locations"),
  ("get_trends_by_location", .optDefault "woeid" "1" "/trends-by-location"),
  ("get_post_likes", .aliasCC "pid" "post_id" "pid" "20" "/likes"),
  ("get_user_likes", .aliasCC "user" "user_id" "user" "20" "/user-likes")]

/-- `list(ACTION_MAP.keys())`: the registered action names, in
registration order. -/
def availableActions : List String :=
  ACTION_SPECS.map Prod.fst

/-- `action in ACTION_MAP` / `ACTION_MAP[action]` lookup. -/
def lookupAction (name : String) : Option HSpec :=
  List.lookup name ACTION_SPECS


/-- The parsed inbound JSON body as far as `twitter_router` inspects
it: the optional `action` field (`data.get("action")`) and the optional
`params` field (`data.get("params", {})`). -/
structure Envelope where
  action : Option String
  params : Option Params

/-- Result of one run of `twitter_router` (main.py lines 1159-1186):
the `(body, status)` response, the upstream requests attempted, and how
many times the `rate_limit_decorator` wrapper body ran (the pacing
gate: read of `last_request_time`, possible sleep, write of
`last_request_time`). -/
structure RouterResult where
  response : Resp
  upstreamCalls : List UpstreamRequest
  pacerAcquires : Nat
deriving DecidableEq, Repr

/-- `ACTION_MAP[action](params)`: every registry entry is wrapped by
`rate_limit_decorator`, so calling it runs the pacing wrapper once and
then the handler body. -/
def dispatch (spec : HSpec) (params : Params)
    (upstream : UpstreamRequest → UpstreamOutcome) : RouterResult :=
  let r := interp spec params upstream
  ⟨r.response, r.upstreamCalls, 1⟩

/-- `twitter_router` (main.py lines 1159-1186).  `rapidapi_key` is the
process-wide `RAPIDAPI_KEY` (`None` when the environment variable is
unset); `body` is the parsed JSON request body (`none` standing for a
missing/null/empty body, which Python's `if not data:` rejects). -/
def twitter_router (rapidapi_key : Option String) (body : Option Envelope)
    (upstream : UpstreamRequest → UpstreamOutcome) : RouterResult :=
  if ¬ truthy rapidapi_key then
    ⟨(.errMsg "RAPIDAPI_KEY environment variable not set", 500), [], 0⟩
  else
    match body with
    | none => ⟨(.errMsg "Request body must be valid JSON", 400), [], 0⟩
    | some data =>
      let action := data.action
      let params := data.params.getD []
      if ¬ truthy action then
        ⟨(.errMsg "Missing required field: action", 400), [], 0⟩
      else
        match lookupAction (action.getD "") with
        | none =>
          ⟨(.errWithActions ("Invalid action: " ++ action.getD "") availableActions, 400), [], 0⟩
        | some spec => dispatch spec params upstream

/-- `MIN_REQUEST_INTERVAL = 1.2` seconds (main.py line 22). -/
def MIN_REQUEST_INTERVAL : ℚ := 6 / 5

/-- The pacing state: the module-global `last_request_time`
(main.py line 21). -/
structure PacerState where
  last_request_time : ℚ

/-- One uncontended run of the `rate_limit_decorator` wrapper body
(main.py lines 26-37) under ideal timing: called at wall-clock instant
`now`, it computes `time_since_last`, sleeps `MIN_REQUEST_INTERVAL -
time_since_last` when that is positive, then stores the post-sleep
clock reading into `last_request_time`.  Returns the slept duration and
the new state; the dispatch happens at instant `now + slept`. -/
def acquire (st : PacerState) (now : ℚ) : ℚ × PacerState :=
  let time_since_last := now - st.last_request_time
  if time_since_last < MIN_REQUEST_INTERVAL then
    let sleep_time := MIN_REQUEST_INTERVAL - time_since_last
    (sleep_time, ⟨now + sleep_time⟩)
  else
    (0, ⟨now⟩)

/-- Progress of one thread through the `rate_limit_decorator` wrapper
body: it has not yet started; it has read the clock and
`last_request_time` and computed the instant `wake` at which it will
resume (its `time.sleep`, or immediately when no sleep is needed); or
it has written `last_request_time` and dispatched. -/
inductive TPhase where
  | notStarted
  | waiting (wake : ℚ)
  | finished
deriving DecidableEq, Repr

/-- Shared state for concurrent executions of the wrapper: the wall
clock, the module-global `last_request_time`, the instants at which
upstream dispatches have been granted, and each thread's phase.
CPython runs Flask request handlers in concurrently scheduled threads
and `rate_limit_decorator` takes no lock, so any interleaving of the
per-thread steps is possible. -/
structure ConcState where
  clock : ℚ
  last_request_time : ℚ
  dispatches : List ℚ
  threads : List TPhase
deriving Repr

/-- One atomic step of thread `i` in the wrapper body.  A `notStarted`
thread executes `current_time = time.time()`, reads the global
`last_request_time`, and computes its wake instant per lines 28-35 (the
read-compute prefix of the wrapper — no write to shared state happens
here).  A `waiting` thread whose sleep has elapsed resumes: the clock
advances to its wake instant if it has not already passed, the thread
executes `last_request_time = time.time()` (line 37) and dispatches its
upstream call.  Other schedules leave the state unchanged. -/
def stepThread (s : ConcState) (i : Nat) : ConcState :=
  match s.threads.get? i with
  | some .notStarted =>
    let current_time := s.clock
    let time_since_last := current_time - s.last_request_time
    let wake :=
      if time_since_last < MIN_REQUEST_INTERVAL then
        current_time + (MIN_REQUEST_INTERVAL - time_since_last)
      else
        current_time
    { s with threads := s.threads.set i (.waiting wake) }
  | some (.waiting wake) =>
    let now := if s.clock ≤ wake then wake else s.clock
    { clock := now
      last_request_time := now
      dispatches := s.dispatches ++ [now]
      threads := s.threads.set i .finished }
  | _ => s

/-- Run a schedule: at each step the OS picks which thread advances. -/
def runSched (s : ConcState) (sched : List Nat) : ConcState :=
  sched.foldl stepThread s

/-- The spec's pacing invariant on the dispatch instants: every pair of
dispatch-permission timestamps is separated by at least
`MIN_REQUEST_INTERVAL` (equivalently, the sorted sequence has
consecutive gaps of at least the interval). -/
def PacingInvariant (ts : List ℚ) : Prop :=
  ts.Pairwise (fun a b => MIN_REQUEST_INTERVAL ≤ |b - a|)

/-- Two requests arrive concurrently at instant 100, long after the
previous dispatch (`last_request_time = 0`). -/
def raceInit : ConcState :=
  ⟨100, 0, [], [.notStarted, .notStarted]⟩

/-- The interleaving in which both threads execute the read-compute
prefix of the wrapper before either writes `last_request_time`. -/
def raceSched : List Nat := [0, 1, 0, 1]

/-- The required parameter alias groups of a handler shape: the
parameters whose joint absence (by Python truthiness) makes the handler
return its 400 early exit. -/
def HSpec.requiredGroups : HSpec → List (List String)
  | .required1 key _ => [[key]]
  | .alias1 k1 k2 _ _ => [[k1, k2]]
  | .aliasCC k1 k2 _ _ _ => [[k1, k2]]
  | .requiredCC key _ _ => [[key]]
  | .searchTCC _ => [["query"]]
  | .aliasTCC k1 k2 _ _ => [[k1, k2]]
  | .noParams _ => []
  | .optDefault _ _ _ => []
  | .jobsSearch => [["query"]]

/-- The alias-set text appearing in the handler's
`Missing required parameter: ...` message. -/
def HSpec.missingMsg : HSpec → String
  | .required1 key _ => key
  | .alias1 k1 k2 _ _ => k1 ++ " or " ++ k2
  | .aliasCC k1 k2 _ _ _ => k1 ++ " or " ++ k2
  | .requiredCC key _ _ => key
  | .searchTCC _ => "query"
  | .aliasTCC k1 k2 _ _ => k1 ++ " or " ++ k2
  | .noParams _ => ""
  | .optDefault _ _ _ => ""
  | .jobsSearch => "query"

/-- The alias pair `(k1, k2, outKey)` of a handler shape whose body
resolves `params.get(k1) or params.get(k2)` and sends the result under
the query key `outKey`; `none` for shapes without an alias pair.  All
the tweet/media/follow-style `user`/`user_id` handlers are `aliasCC`
instances with the pair `("user", "user_id", "user")`. -/
def HSpec.aliasPair : HSpec → Option (String × String × String)
  | .alias1 k1 k2 outKey _ => some (k1, k2, outKey)
  | .aliasCC k1 k2 outKey _ _ => some (k1, k2, outKey)
  | .aliasTCC k1 k2 outKey _ => some (k1, k2, outKey)
  | _ => none

/-- The envelope is missing a required parameter of the given handler
shape: some required alias group has every accepted name absent or
empty (Python-falsy). -/
def missingRequiredB (spec : HSpec) (params : Params) : Bool :=
  spec.requiredGroups.any (fun g => g.all (fun k => !(truthy (pyGet params k))))

/-- When a required alias group is entirely absent/empty, the handler
body returns its 400 `Missing required parameter` response and attempts
no upstream request.  Proved by cases over the handler shapes. -/
theorem interp_missing (spec : HSpec) (params : Params)
    (upstream : UpstreamRequest → UpstreamOutcome)
    (h : missingRequiredB spec params = true) :
    interp spec params upstream = missingParam spec.missingMsg := by
  cases spec with
  | required1 key path =>
    simp [missingRequiredB, HSpec.requiredGroups] at h
    simp [interp, HSpec.missingMsg, h]
  | alias1 k1 k2 outKey path =>
    simp [missingRequiredB, HSpec.requiredGroups] at h
    simp [interp, HSpec.missingMsg, pyOr, h.1, h.2]
  | aliasCC k1 k2 outKey dflt path =>
    simp [missingRequiredB, HSpec.requiredGroups] at h
    simp [interp, HSpec.missingMsg, pyOr, h.1, h.2]
  | requiredCC key dflt path =>
    simp [missingRequiredB, HSpec.requiredGroups] at h
    simp [interp, HSpec.missingMsg, h]
  | searchTCC path =>
    simp [missingRequiredB, HSpec.requiredGroups] at h
    simp [interp, HSpec.missingMsg, h]
  | aliasTCC k1 k2 outKey path =>
    simp [missingRequiredB, HSpec.requiredGroups] at h
    simp [interp, HSpec.missingMsg, pyOr, h.1, h.2]
  | noParams path =>
    simp [missingRequiredB, HSpec.requiredGroups] at h
  | optDefault key dflt path =>
    simp [missingRequiredB, HSpec.requiredGroups] at h
  | jobsSearch =>
    simp [missingRequiredB, HSpec.requiredGroups] at h
    simp [interp, HSpec.missingMsg, h]

/-- A successful association-list lookup means the pair is in the list. -/
theorem lookup_mem {α β : Type} [BEq α] [LawfulBEq α] (l : List (α × β)) (k : α) (v : β)
    (h : List.lookup k l = some v) : (k, v) ∈ l := by
  induction l with
  | nil => simp [List.lookup] at h
  | cons p t ih =>
    obtain ⟨k2, v2⟩ := p
    rw [List.lookup] at h
    rcases hk : (k == k2) with _ | _
    · rw [hk] at h
      exact List.mem_cons_of_mem _ (ih h)
    · rw [hk] at h
      cases h
      have := eq_of_beq hk
      subst this
      exact List.mem_cons_self _ _

/-- A registered action name is not the empty string (the router's
`if not action:` check therefore never hides a registered action). -/
theorem lookupAction_ne_empty (name : String) (spec : HSpec)
    (h : lookupAction name = some spec) : name ≠ "" := by
  intro he
  subst he
  have hnone : lookupAction "" = none := by decide
  rw [hnone] at h
  exact Option.noConfusion h

/-- Unfolding of the router on a well-formed envelope with a registered
action: the credential is set, the action is registered, so the wrapped
handler is dispatched (running the pacing wrapper once). -/
theorem twitter_router_dispatch (key : Option String) (name : String) (spec : HSpec)
    (params : Params) (upstream : UpstreamRequest → UpstreamOutcome)
    (hk : truthy key = true) (hs : lookupAction name = some spec) :
    twitter_router key (some ⟨some name, some params⟩) upstream =
      dispatch spec params upstream := by
  have hne : name ≠ "" := lookupAction_ne_empty name spec hs
  have h1 : truthy (some name) = true := by simp [truthy, hne]
  simp [twitter_router, hk, h1, hs]

/-- `callUpstream` always records exactly the one request it attempts,
whatever the outcome. -/
theorem callUpstream_calls (upstream : UpstreamRequest → UpstreamOutcome)
    (path : String) (q : List (String × String)) :
    (callUpstream upstream path q).upstreamCalls = [⟨path, q⟩] := by
  rw [callUpstream]
  cases upstream ⟨path, q⟩ <;> rfl

/-- Whenever the resolved `user or user_id` alias value is non-empty,
`get_user_tweets` attempts exactly one upstream request, to
`/user-tweets`, sending the resolved value under the `user` key. -/
theorem get_user_tweets_sends (params : Params)
    (upstream : UpstreamRequest → UpstreamOutcome) (v : String)
    (hv : pyOr (pyGet params "user") (pyGet params "user_id") = some v) (hne : v ≠ "") :
    (get_user_tweets params upstream).upstreamCalls =
      [⟨"/user-tweets",
        [("user", v), ("count", pyGetD params "count" "20")]
          ++ cursorSuffix (pyGet params "cursor")⟩] := by
  have htv : truthy (some v) = true := by simpa [truthy] using hne
  simp only [get_user_tweets, interp, hv, htv, if_true, Option.getD_some]
  rw [callUpstream_calls]

/-- Marks the handler shapes that accept an optional cursor. -/
def HSpec.hasCursor : HSpec → Bool
  | .aliasCC _ _ _ _ _ => true
  | .requiredCC _ _ _ => true
  | .searchTCC _ => true
  | .aliasTCC _ _ _ _ => true
  | .jobsSearch => true
  | _ => false

/-- The variable (per-action) query keys of a shape stay clear of the
literal key `cursor`; the fixed literal keys (`count`, `type`, `query`,
`location`) are distinct from `cursor` by computation. -/
def HSpec.cursorFreeFixedKeys : HSpec → Bool
  | .required1 key _ => key != "cursor"
  | .alias1 _ _ outKey _ => outKey != "cursor"
  | .aliasCC _ _ outKey _ _ => outKey != "cursor"
  | .requiredCC key _ _ => key != "cursor"
  | .searchTCC _ => true
  | .aliasTCC _ _ outKey _ => outKey != "cursor"
  | .noParams _ => true
  | .optDefault key _ _ => key != "cursor"
  | .jobsSearch => true

/-- Every registered action's per-action query keys avoid `cursor`. -/
theorem registry_cursor_free :
    ACTION_SPECS.all (fun p => p.2.cursorFreeFixedKeys) = true := by decide

/-- Looking up `cursor` in a query skips any prefix whose keys all
differ from `cursor`. -/
theorem lookup_cursor_append (l : List (String × String)) (rest : List (String × String))
    (h : l.all (fun p => p.1 != "cursor") = true) :
    List.lookup "cursor" (l ++ rest) = List.lookup "cursor" rest := by
  induction l with
  | nil => rfl
  | cons p t ih =>
    obtain ⟨k, v⟩ := p
    simp only [List.all_cons, Bool.and_eq_true] at h
    have hne : ("cursor" == k) = false := by
      have : k ≠ "cursor" := by simpa using h.1
      simp [this, Ne.symm this]
    rw [List.cons_append, List.lookup, hne]
    exact ih h.2

/-- Looking up `cursor` in the cursor segment itself: present with its
value exactly when the inbound cursor is present and non-empty. -/
theorem lookup_cursorSuffix (cursor : Option String) :
    List.lookup "cursor" (cursorSuffix cursor) =
      (if truthy cursor then some (cursor.getD "") else none) := by
  rw [cursorSuffix]
  split
  · rw [List.lookup]
    simp
  · rfl

/-- Looking up a key at the head of a query finds the head's value. -/
theorem lookup_head (k v : String) (rest : List (String × String)) :
    List.lookup k ((k, v) :: rest) = some v := by
  rw [List.lookup]
  simp

/-- C1: the claimed pacing invariant — any N concurrently issued
acquisitions yield dispatch timestamps pairwise separated by at least
`MIN_REQUEST_INTERVAL` — fails on the code.  `rate_limit_decorator`
guards `last_request_time` with no lock, so the interleaving in which
two concurrent requests both execute the read-compute prefix of the
wrapper before either writes `last_request_time` is legal; starting
long after the previous dispatch, both threads observe no wait and both
dispatch at the same instant 100, violating the invariant (gap 0 <
1.2 s). -/
theorem C1_pacing_invariant_race :
    (runSched raceInit raceSched).dispatches = [100, 100] ∧
    ¬ PacingInvariant (runSched raceInit raceSched).dispatches := by
  have heval : (runSched raceInit raceSched).dispatches = [100, 100] := by
    norm_num [runSched, raceInit, raceSched, stepThread, MIN_REQUEST_INTERVAL, List.foldl]
  refine ⟨heval, ?_⟩
  intro h
  rw [heval] at h
  rcases h with _ | ⟨h1, _⟩
  have h2 := h1 100 (by simp)
  norm_num [MIN_REQUEST_INTERVAL] at h2

/-- C4: a single uncontended `acquire` computes
`wait = max 0 (last_request_time + MIN_REQUEST_INTERVAL - now)`,
sleeps exactly that long, records the post-sleep instant `now + wait`
as the new `last_request_time`, and in particular waits nothing when
called more than the interval after the previous dispatch. -/
theorem C4_acquire_uncontended (st : PacerState) (now : ℚ) :
    (acquire st now).1 = max 0 (st.last_request_time + MIN_REQUEST_INTERVAL - now) ∧
    (acquire st now).2.last_request_time = now + (acquire st now).1 ∧
    (st.last_request_time + MIN_REQUEST_INTERVAL < now → (acquire st now).1 = 0) := by
  by_cases h : now - st.last_request_time < MIN_REQUEST_INTERVAL
  · have hmax : max (0 : ℚ) (st.last_request_time + MIN_REQUEST_INTERVAL - now) =
        st.last_request_time + MIN_REQUEST_INTERVAL - now := max_eq_right (by linarith)
    simp only [acquire, if_pos h]
    exact ⟨by rw [hmax]; ring, by ring_nf, fun hlt => absurd h (by push_neg; linarith)⟩
  · have hmax : max (0 : ℚ) (st.last_request_time + MIN_REQUEST_INTERVAL - now) = 0 :=
      max_eq_left (by push_neg at h; linarith)
    simp only [acquire, if_neg h]
    exact ⟨by rw [hmax], by ring_nf, by intro _; simp⟩

/-- C4 witness: the previous dispatch was at instant 0 and the next
`acquire` arrives at instant 2 (more than 1.2 s later): no wait, and
the state records instant 2. -/
theorem C4_witness :
    (acquire ⟨0⟩ 2).1 = 0 ∧ (acquire ⟨0⟩ 2).2.last_request_time = 2 := by
  have h := C4_acquire_uncontended ⟨0⟩ 2
  have h3 := h.2.2 (by norm_num [MIN_REQUEST_INTERVAL])
  refine ⟨h3, ?_⟩
  rw [h.2.1, h3]
  norm_num

/-- C5: with the credential unset (or empty), every request to the
action endpoint — whatever its body — returns the 500
credential-not-configured error, with zero upstream calls and without
running the pacing wrapper. -/
theorem C5_credential_gate (key : Option String) (body : Option Envelope)
    (upstream : UpstreamRequest → UpstreamOutcome) (hk : truthy key = false) :
    twitter_router key body upstream =
      ⟨(.errMsg "RAPIDAPI_KEY environment variable not set", 500), [], 0⟩ := by
  simp [twitter_router, hk]

/-- C5 witness: unset credential, a well-formed request for a
registered action, a responsive upstream — still the 500 gate, no
upstream call, no pacing. -/
theorem C5_witness :
    twitter_router none (some ⟨some "get_user_by_username", some [("username", "jack")]⟩)
        (fun _ => .http 200 "ok") =
      ⟨(.errMsg "RAPIDAPI_KEY environment variable not set", 500), [], 0⟩ := by
  exact C5_credential_gate none
    (some ⟨some "get_user_by_username", some [("username", "jack")]⟩)
    (fun _ => .http 200 "ok") (by rfl)

/-- C10: an envelope with an `action` field but no `params` field is
processed exactly like one with `params = {}` (the router substitutes
the empty dict), and such a request is not rejected: a parameterless
action proceeds all the way to the upstream call and a 200. -/
theorem C10_absent_params_defaults_empty (key : Option String) (action : Option String)
    (upstream : UpstreamRequest → UpstreamOutcome) :
    twitter_router key (some ⟨action, none⟩) upstream =
      twitter_router key (some ⟨action, some []⟩) upstream ∧
    twitter_router (some "k") (some ⟨some "get_community_topics", none⟩)
        (fun _ => .http 200 "topics") =
      ⟨(.upstream "topics", 200), [⟨"/community-topics", []⟩], 1⟩ := by
  constructor
  · rfl
  · decide

/-- C2 counterexample: a request for the registered action
`get_user_by_username` with empty params does return 400 with zero
upstream calls, but the pacing wrapper runs (`pacerAcquires = 1`):
`rate_limit_decorator` wraps every handler, so pacing happens before
parameter validation, contradicting the claim that the Pacer is never
invoked on a missing-required-parameter request. -/
theorem C2_counterexample :
    twitter_router (some "k") (some ⟨some "get_user_by_username", some []⟩)
        (fun _ => .http 200 "ok") =
      ⟨(.errMsg "Missing required parameter: username", 400), [], 1⟩ ∧
    (twitter_router (some "k") (some ⟨some "get_user_by_username", some []⟩)
        (fun _ => .http 200 "ok")).pacerAcquires ≠ 0 := by
  constructor
  · decide
  · decide

/-- C2 (amended): for every registered action, an envelope missing one
of its required parameter alias groups yields a 400
`Missing required parameter` response with zero upstream calls — but
the pacing wrapper runs exactly once before validation. -/
theorem C2_amended_missing_param (key : Option String) (name : String) (spec : HSpec)
    (params : Params) (upstream : UpstreamRequest → UpstreamOutcome)
    (hk : truthy key = true)
    (hs : lookupAction name = some spec)
    (hm : missingRequiredB spec params = true) :
    twitter_router key (some ⟨some name, some params⟩) upstream =
      ⟨(.errMsg ("Missing required parameter: " ++ spec.missingMsg), 400), [], 1⟩ := by
  rw [twitter_router_dispatch key name spec params upstream hk hs]
  rw [dispatch, interp_missing spec params upstream hm]
  rfl

/-- C2 (amended) witness: `get_user_tweets` called without `user` or
`user_id`. -/
theorem C2_amended_witness :
    twitter_router (some "k") (some ⟨some "get_user_tweets", some [("count", "5")]⟩)
        (fun _ => .http 200 "ok") =
      ⟨(.errMsg "Missing required parameter: user or user_id", 400), [], 1⟩ := by
  have h := C2_amended_missing_param (some "k") "get_user_tweets"
    (.aliasCC "user" "user_id" "user" "20" "/user-tweets") [("count", "5")]
    (fun _ => .http 200 "ok") (by rfl) (by rfl) (by decide)
  exact h.trans (by decide)

/-- C3 counterexample: on a transport failure the code returns 500 with
body `{"error": "Internal server error"}` (the generic `except` branch),
not the claimed `{"error": "API request failed with status <code>"}`. -/
theorem C3_counterexample :
    (get_user_by_username [("username", "jack")] (fun _ => .transportError)).response =
      (.errMsg "Internal server error", 500) ∧
    (get_user_by_username [("username", "jack")] (fun _ => .transportError)).response.1 ≠
      .errMsg "API request failed with status 500" := by
  constructor
  · decide
  · decide

/-- C3 (amended): the response translation maps upstream 200 to 200
with the upstream body unmodified; 429 to 429 with `status
"rate_limited"`; 401 to 401 with the fixed auth-failure body; any other
received status is passed through with the
`API request failed with status <code>` body; and a transport failure
yields 500 with body `{"error": "Internal server error"}` (the lone
divergence from the claim), after one attempted upstream request. -/
theorem C3_amended_translation (status : Nat) (body : String) (path : String)
    (query : List (String × String)) (upstream : UpstreamRequest → UpstreamOutcome)
    (htrans : upstream ⟨path, query⟩ = .transportError) :
    handle_rapidapi_response 200 body = (.upstream body, 200) ∧
    handle_rapidapi_response 429 body = (.rateLimited
      "Rate limit exceeded. Twitter API calls are limited on the BASIC plan."
      "Please wait a moment and try again, or consider upgrading your RapidAPI plan."
      "rate_limited", 429) ∧
    handle_rapidapi_response 401 body =
      (.errMsg "Invalid API key or authentication failed.", 401) ∧
    (status ≠ 200 → status ≠ 429 → status ≠ 401 →
      handle_rapidapi_response status body =
        (.errMsg ("API request failed with status " ++ toString status), status)) ∧
    callUpstream upstream path query =
      ⟨(.errMsg "Internal server error", 500), [⟨path, query⟩]⟩ := by
  refine ⟨rfl, rfl, rfl, ?_, ?_⟩
  · intro h1 h2 h3
    simp [handle_rapidapi_response, h1, h2, h3]
  · rw [callUpstream, htrans]

/-- C3 (amended) witness: an unhandled upstream status (418) is passed
through with the template body, and a transport failure on the `/user`
request yields the 500 internal-server-error response. -/
theorem C3_amended_witness :
    handle_rapidapi_response 418 "x" =
      (.errMsg "API request failed with status 418", 418) ∧
    callUpstream (fun _ => .transportError) "/user" [("username", "jack")] =
      ⟨(.errMsg "Internal server error", 500), [⟨"/user", [("username", "jack")]⟩]⟩ := by
  have h := C3_amended_translation 418 "x" "/user" [("username", "jack")]
    (fun _ => .transportError) rfl
  exact ⟨h.2.2.2.1 (by decide) (by decide) (by decide), h.2.2.2.2⟩

/-- C6 counterexample: the envelope `{action: "", params: {}}` has an
action string that is not a registry key, yet the response body is the
plain `Missing required field: action` error, which carries no list of
registered action names — the router's `if not action:` check fires
before the registry lookup for any falsy action string. -/
theorem C6_counterexample :
    twitter_router (some "k") (some ⟨some "", some []⟩) (fun _ => .http 200 "ok") =
      ⟨(.errMsg "Missing required field: action", 400), [], 0⟩ ∧
    (∀ msg acts, (twitter_router (some "k") (some ⟨some "", some []⟩)
        (fun _ => .http 200 "ok")).response.1 ≠ .errWithActions msg acts) := by
  constructor
  · decide
  · intro msg acts h
    have : (twitter_router (some "k") (some ⟨some "", some []⟩)
        (fun _ => .http 200 "ok")).response.1 = .errMsg "Missing required field: action" := by
      decide
    rw [this] at h
    exact RespBody.noConfusion h

/-- C6 (amended): for every envelope whose action string is non-empty
and not a registry key, the router returns 400 with the
`Invalid action` body carrying the full registered-action list, no
upstream call, and no pacing. -/
theorem C6_amended_unknown_action (key : Option String) (name : String) (params : Params)
    (upstream : UpstreamRequest → UpstreamOutcome)
    (hk : truthy key = true) (hne : name ≠ "")
    (hs : lookupAction name = none) :
    twitter_router key (some ⟨some name, some params⟩) upstream =
      ⟨(.errWithActions ("Invalid action: " ++ name) availableActions, 400), [], 0⟩ := by
  have h1 : truthy (some name) = true := by simp [truthy, hne]
  simp [twitter_router, hk, h1, hs]

/-- C6 (amended) witness: the spec's own scenario,
`{action: "not_a_real_action", params: {}}`. -/
theorem C6_amended_witness :
    twitter_router (some "k") (some ⟨some "not_a_real_action", some []⟩)
        (fun _ => .http 200 "ok") =
      ⟨(.errWithActions "Invalid action: not_a_real_action" availableActions, 400), [], 0⟩ := by
  have h := C6_amended_unknown_action (some "k") "not_a_real_action" []
    (fun _ => .http 200 "ok") (by rfl) (by decide) (by decide)
  exact h.trans (by rfl)

/-- C7 counterexample: with `user` present (but empty) and `user_id`
present, `get_user_tweets` sends the `user_id` value upstream, not the
`user` value — `params.get("user") or params.get("user_id")` skips a
present-but-falsy first alias. -/
theorem C7_counterexample :
    pyGet [("user", ""), ("user_id", "123")] "user" = some "" ∧
    pyGet [("user", ""), ("user_id", "123")] "user_id" = some "123" ∧
    (get_user_tweets [("user", ""), ("user_id", "123")]
        (fun _ => .http 200 "ok")).upstreamCalls =
      [⟨"/user-tweets", [("user", "123"), ("count", "20")]⟩] := by
  refine ⟨by decide, by decide, by decide⟩

/-- C7 (amended): for every registered action whose handler resolves a
parameter alias pair via `params.get(k1) or params.get(k2)` — all the
tweet/media/follow-style `user`/`user_id` handlers among them — alias
resolution is deterministic first-truthy-wins: a present and non-empty
first alias is preferred over the second; the resolved value is exactly
what the single attempted upstream request sends under the action's
query key; and when every alias is absent or empty the handler returns
the 400 error naming the accepted alias set. -/
theorem C7_amended_alias_precedence (name : String) (spec : HSpec)
    (k1 k2 outKey : String) (params : Params)
    (upstream : UpstreamRequest → UpstreamOutcome)
    (hs : lookupAction name = some spec)
    (ha : spec.aliasPair = some (k1, k2, outKey)) :
    (truthy (pyGet params k1) = true →
      pyOr (pyGet params k1) (pyGet params k2) = pyGet params k1) ∧
    (∀ v, pyOr (pyGet params k1) (pyGet params k2) = some v → v ≠ "" →
      (interp spec params upstream).upstreamCalls.length = 1 ∧
      ∀ req ∈ (interp spec params upstream).upstreamCalls,
        List.lookup outKey req.query = some v) ∧
    (truthy (pyOr (pyGet params k1) (pyGet params k2)) = false →
      interp spec params upstream = missingParam (k1 ++ " or " ++ k2)) := by
  have hfirst : truthy (pyGet params k1) = true →
      pyOr (pyGet params k1) (pyGet params k2) = pyGet params k1 := by
    intro h
    simp [pyOr, h]
  cases spec with
  | required1 key path => simp [HSpec.aliasPair] at ha
  | requiredCC key dflt path => simp [HSpec.aliasPair] at ha
  | searchTCC path => simp [HSpec.aliasPair] at ha
  | noParams path => simp [HSpec.aliasPair] at ha
  | optDefault key dflt path => simp [HSpec.aliasPair] at ha
  | jobsSearch => simp [HSpec.aliasPair] at ha
  | alias1 a b o path =>
    simp only [HSpec.aliasPair, Option.some.injEq, Prod.mk.injEq] at ha
    obtain ⟨h1, h2, h3⟩ := ha
    subst h1; subst h2; subst h3
    refine ⟨hfirst, ?_, ?_⟩
    · intro v hv hne
      have htv : truthy (some v) = true := by simpa [truthy] using hne
      simp only [interp, hv, htv, if_true, Option.getD_some]
      rw [callUpstream_calls]
      refine ⟨rfl, ?_⟩
      intro req hreq
      have hr : req = ⟨path, [(o, v)]⟩ := by simpa using hreq
      subst hr
      exact lookup_head o v _
    · intro h
      simp [interp, h]
  | aliasCC a b o dflt path =>
    simp only [HSpec.aliasPair, Option.some.injEq, Prod.mk.injEq] at ha
    obtain ⟨h1, h2, h3⟩ := ha
    subst h1; subst h2; subst h3
    refine ⟨hfirst, ?_, ?_⟩
    · intro v hv hne
      have htv : truthy (some v) = true := by simpa [truthy] using hne
      simp only [interp, hv, htv, if_true, Option.getD_some]
      rw [callUpstream_calls]
      refine ⟨rfl, ?_⟩
      intro req hreq
      have hr : req = ⟨path,
          [(o, v), ("count", pyGetD params "count" dflt)]
            ++ cursorSuffix (pyGet params "cursor")⟩ := by simpa using hreq
      subst hr
      exact lookup_head o v _
    · intro h
      simp [interp, h]
  | aliasTCC a b o path =>
    simp only [HSpec.aliasPair, Option.some.injEq, Prod.mk.injEq] at ha
    obtain ⟨h1, h2, h3⟩ := ha
    subst h1; subst h2; subst h3
    refine ⟨hfirst, ?_, ?_⟩
    · intro v hv hne
      have htv : truthy (some v) = true := by simpa [truthy] using hne
      simp only [interp, hv, htv, if_true, Option.getD_some]
      rw [callUpstream_calls]
      refine ⟨rfl, ?_⟩
      intro req hreq
      have hr : req = ⟨path,
          [(o, v), ("type", pyGetD params "type" "Top"),
           ("count", pyGetD params "count" "20")]
            ++ cursorSuffix (pyGet params "cursor")⟩ := by simpa using hreq
      subst hr
      exact lookup_head o v _
    · intro h
      simp [interp, h]

/-- C7 (amended) witness: `get_user_media` (a follow-style sibling of
`get_user_tweets`) with both aliases present and non-empty sends the
`user` value upstream. -/
theorem C7_amended_witness :
    List.lookup "user"
      (UpstreamRequest.query ⟨"/user-media", [("user", "alice"), ("count", "20")]⟩) =
      some "alice" := by
  have h := C7_amended_alias_precedence "get_user_media"
    (.aliasCC "user" "user_id" "user" "20" "/user-media") "user" "user_id" "user"
    [("user", "alice"), ("user_id", "123")] (fun _ => .http 200 "ok")
    (by rfl) (by rfl)
  exact (h.2.1 "alice" (by decide) (by decide)).2
    ⟨"/user-media", [("user", "alice"), ("count", "20")]⟩ (by decide)

/-- C9: the handlers treat an empty-string value as absent: an empty
first alias falls through to the next one (shown on `get_user_tweets`,
the cited representative), and for every registered action, when each
accepted name of a required alias group is absent or empty the handler
returns the 400 `Missing required parameter` error naming the group,
with no upstream call attempted. -/
theorem C9_empty_param_as_absent (params : Params) (v : String) (name : String)
    (spec : HSpec) (upstream : UpstreamRequest → UpstreamOutcome) :
    (pyGet params "user" = some "" → pyGet params "user_id" = some v → v ≠ "" →
      (get_user_tweets params upstream).upstreamCalls =
        [⟨"/user-tweets",
          [("user", v), ("count", pyGetD params "count" "20")]
            ++ cursorSuffix (pyGet params "cursor")⟩]) ∧
    (lookupAction name = some spec → missingRequiredB spec params = true →
      interp spec params upstream =
        ⟨(.errMsg ("Missing required parameter: " ++ spec.missingMsg), 400), []⟩) := by
  constructor
  · intro hu huid hne
    have hv : pyOr (pyGet params "user") (pyGet params "user_id") = some v := by
      simp [pyOr, hu, huid, truthy]
    exact get_user_tweets_sends params upstream v hv hne
  · intro _ hm
    rw [interp_missing spec params upstream hm]
    rfl

/-- C9 witness: `user` present but empty falls through to `user_id`,
and `get_user_by_username` on the same params (no `username`) returns
the 400 error without an upstream call. -/
theorem C9_witness :
    (get_user_tweets [("user", ""), ("user_id", "99")]
        (fun _ => .http 200 "ok")).upstreamCalls =
      [⟨"/user-tweets", [("user", "99"), ("count", "20")]⟩] ∧
    interp (.required1 "username" "/user") [("user", ""), ("user_id", "99")]
        (fun _ => .http 200 "ok") =
      ⟨(.errMsg "Missing required parameter: username", 400), []⟩ := by
  have h := C9_empty_param_as_absent [("user", ""), ("user_id", "99")] "99"
    "get_user_by_username" (.required1 "username" "/user") (fun _ => .http 200 "ok")
  refine ⟨?_, ?_⟩
  · exact (h.1 (by decide) (by decide) (by decide)).trans (by decide)
  · exact (h.2 (by rfl) (by decide)).trans (by decide)

/-- A query of the form `fixed prefix (no cursor key) ++ cursor
segment` contains the `cursor` key iff the inbound cursor was present
and non-empty, and then with exactly the inbound value. -/
theorem cursor_conclusion (q pre : List (String × String)) (cursor : Option String)
    (hq : q = pre ++ cursorSuffix cursor)
    (hpre : pre.all (fun p => p.1 != "cursor") = true) :
    (truthy cursor = false → List.lookup "cursor" q = none) ∧
    (∀ c, cursor = some c → c ≠ "" → List.lookup "cursor" q = some c) := by
  subst hq
  rw [lookup_cursor_append pre _ hpre, lookup_cursorSuffix]
  constructor
  · intro h
    simp [h]
  · intro c hc hne
    subst hc
    have ht : truthy (some c) = true := by simpa [truthy] using hne
    simp [ht]

/-- C8: for every registered action whose handler accepts an optional
cursor, any upstream request it attempts contains the `cursor` query
key iff the inbound cursor was present and non-empty (absent or empty
cursors produce a query with no cursor key at all, never an
empty-string cursor), and a non-empty cursor is forwarded verbatim. -/
theorem C8_optional_cursor (name : String) (spec : HSpec) (params : Params)
    (upstream : UpstreamRequest → UpstreamOutcome) (req : UpstreamRequest)
    (hs : lookupAction name = some spec)
    (hc : spec.hasCursor = true)
    (hreq : req ∈ (interp spec params upstream).upstreamCalls) :
    (truthy (pyGet params "cursor") = false → List.lookup "cursor" req.query = none) ∧
    (∀ c, pyGet params "cursor" = some c → c ≠ "" →
      List.lookup "cursor" req.query = some c) := by
  have hmem : (name, spec) ∈ ACTION_SPECS := lookup_mem ACTION_SPECS name spec hs
  have hfree : spec.cursorFreeFixedKeys = true := by
    have hall := registry_cursor_free
    rw [List.all_eq_true] at hall
    exact hall (name, spec) hmem
  cases spec with
  | required1 key path => simp [HSpec.hasCursor] at hc
  | alias1 k1 k2 outKey path => simp [HSpec.hasCursor] at hc
  | noParams path => simp [HSpec.hasCursor] at hc
  | optDefault key dflt path => simp [HSpec.hasCursor] at hc
  | aliasCC k1 k2 outKey dflt path =>
    simp only [HSpec.cursorFreeFixedKeys] at hfree
    by_cases hg : truthy (pyOr (pyGet params k1) (pyGet params k2)) = true
    · simp only [interp, hg, if_true] at hreq
      rw [callUpstream_calls] at hreq
      have hr : req = ⟨path,
          [(outKey, (pyOr (pyGet params k1) (pyGet params k2)).getD ""),
           ("count", pyGetD params "count" dflt)]
            ++ cursorSuffix (pyGet params "cursor")⟩ := by simpa using hreq
      subst hr
      exact cursor_conclusion _ _ _ rfl (by simp [List.all_cons, hfree])
    · simp only [interp, if_neg hg, missingParam] at hreq
      simp at hreq
  | requiredCC key dflt path =>
    simp only [HSpec.cursorFreeFixedKeys] at hfree
    by_cases hg : truthy (pyGet params key) = true
    · simp only [interp, hg, if_true] at hreq
      rw [callUpstream_calls] at hreq
      have hr : req = ⟨path,
          [(key, (pyGet params key).getD ""), ("count", pyGetD params "count" dflt)]
            ++ cursorSuffix (pyGet params "cursor")⟩ := by simpa using hreq
      subst hr
      exact cursor_conclusion _ _ _ rfl (by simp [List.all_cons, hfree])
    · simp only [interp, if_neg hg, missingParam] at hreq
      simp at hreq
  | searchTCC path =>
    by_cases hg : truthy (pyGet params "query") = true
    · simp only [interp, hg, if_true] at hreq
      rw [callUpstream_calls] at hreq
      have hr : req = ⟨path,
          [("query", (pyGet params "query").getD ""),
           ("type", pyGetD params "type" "Top"),
           ("count", pyGetD params "count" "20")]
            ++ cursorSuffix (pyGet params "cursor")⟩ := by simpa using hreq
      subst hr
      exact cursor_conclusion _ _ _ rfl (by simp [List.all_cons])
    · simp only [interp, if_neg hg, missingParam] at hreq
      simp at hreq
  | aliasTCC k1 k2 outKey path =>
    simp only [HSpec.cursorFreeFixedKeys] at hfree
    by_cases hg : truthy (pyOr (pyGet params k1) (pyGet params k2)) = true
    · simp only [interp, hg, if_true] at hreq
      rw [callUpstream_calls] at hreq
      have hr : req = ⟨path,
          [(outKey, (pyOr (pyGet params k1) (pyGet params k2)).getD ""),
           ("type", pyGetD params "type" "Top"),
           ("count", pyGetD params "count" "20")]
            ++ cursorSuffix (pyGet params "cursor")⟩ := by simpa using hreq
      subst hr
      exact cursor_conclusion _ _ _ rfl (by simp [List.all_cons, hfree])
    · simp only [interp, if_neg hg, missingParam] at hreq
      simp at hreq
  | jobsSearch =>
    by_cases hg : truthy (pyGet params "query") = true
    · simp only [interp, hg, if_true] at hreq
      rw [callUpstream_calls] at hreq
      have hr : req = ⟨"/jobs-search",
          [("query", (pyGet params "query").getD ""),
           ("count", pyGetD params "count" "20")]
            ++ (if truthy (pyGet params "location") then
                  [("location", (pyGet params "location").getD "")] else [])
            ++ cursorSuffix (pyGet params "cursor")⟩ := by simpa using hreq
      subst hr
      refine cursor_conclusion _
        ([("query", (pyGet params "query").getD ""),
          ("count", pyGetD params "count" "20")]
          ++ (if truthy (pyGet params "location") then
                [("location", (pyGet params "location").getD "")] else []))
        (pyGet params "cursor") (by simp) ?_
      rcases htl : truthy (pyGet params "location") <;>
        simp [htl, List.all_append, List.all_cons]
    · simp only [interp, if_neg hg, missingParam] at hreq
      simp at hreq

/-- C8 witness: `get_user_tweets` without a cursor produces a query
with no cursor key. -/
theorem C8_witness :
    List.lookup "cursor"
      (UpstreamRequest.query ⟨"/user-tweets", [("user", "alice"), ("count", "20")]⟩) = none := by
  have h := C8_optional_cursor "get_user_tweets"
    (.aliasCC "user" "user_id" "user" "20" "/user-tweets") [("user", "alice")]
    (fun _ => .http 200 "ok") ⟨"/user-tweets", [("user", "alice"), ("count", "20")]⟩
    (by rfl) (by rfl) (by decide)
  exact h.1 (by decide)
